import Mathlib

/-!
Verification development for `AmbientMonitor.py`.

The program connects to a BLE light strip, periodically samples the screen,
computes a dominant RGB colour, encodes it into a vendor byte frame and writes
it to a GATT characteristic; on shutdown it attempts an OFF command and a
disconnect.  This file gives a shallow embedding of the pieces the testable
properties talk about:

* the command encoder (`bytes.fromhex` over the hex strings built by the
  source: `ON_HEX`, `OFF_HEX` and the f-string `"7e070503{value}10ef"` with
  `value` produced by `'{:02x}{:02x}{:02x}'.format(r, g, b)`), and
* the connection/shutdown lifecycle of `main`, `disconnect_client`, `on_exit`
  and `sigterm_handler`, as a trace of observable events (write attempts,
  disconnect attempts, sleeps) driven by an environment that decides the
  outcome of each external call.
-/

namespace AmbientMonitor

/-! ### Command encoder -/

/-- Hex digit value of a character, as accepted by Python's `bytes.fromhex`
(`0-9`, `a-f`, `A-F`); `none` for any other character. -/
def hexVal? (c : Char) : Option Nat :=
  if '0' ≤ c ∧ c ≤ '9' then some (c.toNat - 48)
  else if 'a' ≤ c ∧ c ≤ 'f' then some (c.toNat - 87)
  else if 'A' ≤ c ∧ c ≤ 'F' then some (c.toNat - 55)
  else none

/-- Model of Python's `bytes.fromhex` on a list of characters: consume two hex
digits per output byte; fail on an odd-length string or a non-hex character.
(The whitespace-skipping of `bytes.fromhex` is not modelled: no call site in
the source ever passes whitespace.) -/
def fromHexChars : List Char → Option (List Nat)
  | [] => some []
  | [_] => none
  | hi :: lo :: rest =>
    match hexVal? hi, hexVal? lo, fromHexChars rest with
    | some x, some y, some t => some ((16 * x + y) :: t)
    | _, _, _ => none

/-- Model of `bytes.fromhex` on a string. -/
def fromHex (s : String) : Option (List Nat) :=
  fromHexChars s.data

/-- Constant from the source: `ON_HEX = "7e0404f00001ff00ef"`. -/
def ON_HEX : String := "7e0404f00001ff00ef"

/-- Constant from the source: `OFF_HEX = "7e0404000000ff00ef"`. -/
def OFF_HEX : String := "7e0404000000ff00ef"

/-- Constant from the source: the GATT characteristic UUID used for all
writes. -/
def characteristic_uuid : String := "0000fff3-0000-1000-8000-00805f9b34fb"

/-- Model of Python's `'{:02x}'.format (n)`: lowercase hex digits of `n`,
left-padded with `'0'` to width 2. -/
def format02x (n : Nat) : String :=
  let ds := Nat.toDigits 16 n
  String.mk (List.replicate (2 - ds.length) '0' ++ ds)

/-- The hex payload built by `get_dominant_colour`'s return statement
`'{:02x}{:02x}{:02x}'.format(*dominant_color)`: the three channels formatted
and concatenated in R-G-B order. -/
def colourHexValue (r g b : Nat) : String :=
  format02x r ++ format02x g ++ format02x b

/-- Model of `send_colour_to_device`'s payload construction:
`bytes.fromhex(f"7e070503{value}10ef")`. -/
def sendColourPayload (value : String) : Option (List Nat) :=
  fromHex ("7e070503" ++ value ++ "10ef")

/-- The colour-command encoding as composed in the source: the dominant-colour
hex string fed into `send_colour_to_device`. -/
def ENCODE_COLOUR (r g b : Nat) : Option (List Nat) :=
  sendColourPayload (colourHexValue r g b)

/-! ### Encoder lemmas -/

theorem string_data_append (s t : String) : (s ++ t).data = s.data ++ t.data :=
  rfl

theorem hexVal?_digitChar (d : Nat) (hd : d < 16) :
    hexVal? (Nat.digitChar d) = some d := by
  revert hd
  revert d
  decide

set_option maxRecDepth 4096 in
theorem format02x_data (x : Nat) (hx : x < 256) :
    (format02x x).data = [Nat.digitChar (x / 16), Nat.digitChar (x % 16)] := by
  revert hx
  revert x
  decide

theorem fromHexChars_pair (hi lo : Char) (x y : Nat) (rest : List Char)
    (h1 : hexVal? hi = some x) (h2 : hexVal? lo = some y) :
    fromHexChars (hi :: lo :: rest) =
      (fromHexChars rest).map (fun t => (16 * x + y) :: t) := by
  rw [fromHexChars, h1, h2]
  cases fromHexChars rest <;> rfl

theorem fromHexChars_format02x (x : Nat) (hx : x < 256) (rest : List Char) :
    fromHexChars ((format02x x).data ++ rest) =
      (fromHexChars rest).map (fun t => x :: t) := by
  rw [format02x_data x hx, List.cons_append, List.cons_append, List.nil_append]
  rw [fromHexChars_pair _ _ (x / 16) (x % 16) rest
      (hexVal?_digitChar _ (Nat.div_lt_of_lt_mul (by omega)))
      (hexVal?_digitChar _ (Nat.mod_lt _ (by omega)))]
  have hx' : 16 * (x / 16) + x % 16 = x := Nat.div_add_mod x 16
  rw [hx']

/-- Core encoder fact: for byte-range channels the colour command is the
9-byte frame `7E 07 05 03 r g b 10 EF`. -/
theorem encodeColour_eq (r g b : Nat) (hr : r < 256) (hg : g < 256)
    (hb : b < 256) :
    ENCODE_COLOUR r g b = some [126, 7, 5, 3, r, g, b, 16, 239] := by
  unfold ENCODE_COLOUR sendColourPayload colourHexValue fromHex
  rw [string_data_append, string_data_append, string_data_append,
    string_data_append]
  have h7e : "7e070503".data = ['7', 'e', '0', '7', '0', '5', '0', '3'] := rfl
  have h10 : "10ef".data = ['1', '0', 'e', 'f'] := rfl
  rw [h7e, h10]
  simp only [List.cons_append, List.nil_append, List.append_assoc]
  rw [fromHexChars_pair '7' 'e' 7 14 _ (by decide) (by decide)]
  rw [fromHexChars_pair '0' '7' 0 7 _ (by decide) (by decide)]
  rw [fromHexChars_pair '0' '5' 0 5 _ (by decide) (by decide)]
  rw [fromHexChars_pair '0' '3' 0 3 _ (by decide) (by decide)]
  rw [fromHexChars_format02x r hr, fromHexChars_format02x g hg,
    fromHexChars_format02x b hb]
  rw [fromHexChars_pair '1' '0' 1 0 _ (by decide) (by decide)]
  have hef : fromHexChars ['e', 'f'] = some [239] := by decide
  rw [hef]
  norm_num [Option.map_some']

/-! ### Lifecycle model

The rest of the file models the observable behaviour of `main` /
`run_main`.  A run is summarised by the finite list of observable events it
produces (connection attempt, sleeps, characteristic write attempts,
disconnect attempts — `print` logging is not modelled) together with the
process exit status.  External outcomes are supplied by an `Env`:

* `connectOk`: whether `await client.connect()` in `init_client` succeeds.
  On failure the `except Exception` clause catches the error, and the
  `finally` block then evaluates `if client is not None` with `client` never
  assigned, raising `UnboundLocalError`, which propagates out of `run_main`:
  the process exits with status 1 having attempted no write.  (The
  `if client is None: raise TypeError` guard in `main` is dead code:
  `init_client` either raises or returns a client, never `None`.  Likewise
  the `if not characteristic_uuid: await get_characteristics(client)` branch
  is statically dead because `characteristic_uuid` is the fixed non-empty
  constant above; neither is modelled.)
* `toggleOnOk`: whether the `toggle_on` write after the settle delay
  succeeds; on failure the exception is caught, logged and the `finally`
  block runs `on_exit`.
* `colour i`: the dominant colour the extractor returns on iteration `i`
  (a byte triple — `fast_colorthief` returns 8-bit channels).
* `iters`: the number of fully completed loop iterations before the run
  stops, and `cause`: how it stops.  The `while True:` body has no inner
  `try`, so the only exits are an exception escaping to the outer
  `except`/`finally`, or SIGINT.  `sigterm_handler` runs
  `loop.create_task(on_exit(client))` and then `sys.exit(1)`; what happens
  depends on which frame the signal interrupts:
  - `StopCause.writeError`: the colour write of iteration `iters` raises; the
    exception is caught and logged, and `finally` runs `on_exit`.
  - `StopCause.sigintAwait`: SIGINT lands while the event loop itself is
    executing (the coroutine suspended at an `await`).  The `SystemExit`
    propagates out of `loop.run_until_complete` before the freshly scheduled
    `on_exit` task ever runs and before `main`'s `finally` can execute: the
    process exits with status 1 with no OFF write and no disconnect.
  - `StopCause.sigintSleep`: SIGINT lands inside a blocking `time.sleep`
    executed by the `main` coroutine itself.  `SystemExit` unwinds `main` to
    its `finally`, which awaits `on_exit`; at its first `await` the event
    loop also runs the `on_exit` task scheduled by the handler, so two
    shutdown sequences execute (modelled serialised: both OFF writes, then
    both disconnect attempts), after which `SystemExit` resumes and the
    process exits with status 1.
* `offOk` / `discOk`: outcomes of the OFF write and of `client.disconnect()`
  inside `disconnect_client`.  `disconnect_client` has no internal `try`: if
  the OFF write raises, the call to `client.disconnect()` is never reached
  and the exception propagates; an exception escaping `main`'s `finally`
  reaches the top level and the interpreter exits with status 1, otherwise
  `main` returns normally and the process exits with status 0.

Sleep durations are modelled in tenths of a second so they stay in `ℕ`:
`time.sleep(3)` is `sleepEv 30`, `time.sleep(0.1)` is `sleepEv 1`. -/

/-- An RGB triple as produced by the dominant-colour extractor: three 8-bit
channels. -/
abbrev RGB : Type := Fin 256 × Fin 256 × Fin 256

/-- Observable events of a run. -/
inductive Ev where
  | connectAttempt : Ev
  | connected : Ev
  | sleepEv : Nat → Ev
  | writeAttempt : List Nat → Bool → Ev
  | disconnectAttempt : Bool → Ev
deriving DecidableEq

/-- How the `RUNNING` loop stops (see the section comment). -/
inductive StopCause where
  | writeError : StopCause
  | sigintAwait : StopCause
  | sigintSleep : StopCause
deriving DecidableEq

/-- Outcomes of the external calls made during one run. -/
structure Env where
  connectOk : Bool
  toggleOnOk : Bool
  colour : Nat → RGB
  iters : Nat
  cause : StopCause
  offOk : Bool
  discOk : Bool

/-- The 9-byte ON frame `bytes.fromhex(ON_HEX)` written by `toggle_on`. -/
def onFrame : List Nat := (fromHex ON_HEX).getD []

/-- The 9-byte OFF frame `bytes.fromhex(OFF_HEX)` written by `toggle_off`. -/
def offFrame : List Nat := (fromHex OFF_HEX).getD []

/-- The colour frame written by `send_colour_to_device` for an extracted
colour.  `bytes.fromhex` cannot fail here (the format string always produces
valid hex for byte-range channels, see `encodeColour_eq`), so the `.getD []`
default is dead. -/
def colourFrameB (c : RGB) : List Nat :=
  (ENCODE_COLOUR c.1 c.2.1 c.2.2).getD []

/-- Model of `disconnect_client(client)`: if `client` is `None` nothing
happens; otherwise (the module constant `characteristic_uuid` being not
`None`) `toggle_off` writes the OFF frame and, only if that write returned,
`client.disconnect()` is attempted.  Returns the events together with
whether the call raised. -/
def disconnectClient :
    Option Unit → Option String → Bool → Bool → List Ev × Bool
  | none, _, _, _ => ([], false)
  | some _, none, _, discOk => ([Ev.disconnectAttempt discOk], !discOk)
  | some _, some _, offOk, discOk =>
    if offOk then
      ([Ev.writeAttempt offFrame true, Ev.disconnectAttempt discOk], !discOk)
    else
      ([Ev.writeAttempt offFrame false], true)

/-- Model of `on_exit(client)`: a `None` check followed by
`disconnect_client(client)`. -/
def onExit (client : Option Unit) (uuid : Option String)
    (offOk discOk : Bool) : List Ev × Bool :=
  match client with
  | none => ([], false)
  | some c => disconnectClient (some c) uuid offOk discOk

/-- The events of `iters` completed `RUNNING` iterations: each sends the
iteration's colour frame and then sleeps `0.1` seconds. -/
def loopBody (colour : Nat → RGB) (iters : Nat) : List Ev :=
  (List.range iters).flatMap fun i =>
    [Ev.writeAttempt (colourFrameB (colour i)) true, Ev.sleepEv 1]

/-- The serialised pair of shutdown sequences run when SIGINT lands inside a
blocking `time.sleep` (the `finally` path and the handler-scheduled `on_exit`
task interleave; the model orders both OFF writes before both disconnect
attempts). -/
def doubleShutdown (offOk discOk : Bool) : List Ev :=
  if offOk then
    [Ev.writeAttempt offFrame true, Ev.writeAttempt offFrame true,
      Ev.disconnectAttempt discOk, Ev.disconnectAttempt discOk]
  else
    [Ev.writeAttempt offFrame false, Ev.writeAttempt offFrame false]

/-- Model of one whole run of `run_main(device_address)`: the event trace and
the process exit status.  See the section comment for the correspondence
with the source. -/
def mainTrace (env : Env) : List Ev × Nat :=
  if env.connectOk then
    let pre := [Ev.connectAttempt, Ev.connected, Ev.sleepEv 30,
      Ev.writeAttempt onFrame env.toggleOnOk]
    if env.toggleOnOk then
      let body := loopBody env.colour env.iters
      match env.cause with
      | StopCause.writeError =>
        let sd := onExit (some ()) (some characteristic_uuid) env.offOk
          env.discOk
        (pre ++ body ++
          [Ev.writeAttempt (colourFrameB (env.colour env.iters)) false] ++
          sd.1,
          if sd.2 then 1 else 0)
      | StopCause.sigintAwait => (pre ++ body, 1)
      | StopCause.sigintSleep =>
        (pre ++ body ++ doubleShutdown env.offOk env.discOk, 1)
    else
      let sd := onExit (some ()) (some characteristic_uuid) env.offOk
        env.discOk
      (pre ++ sd.1, if sd.2 then 1 else 0)
  else
    ([Ev.connectAttempt], 1)

/-! ### Event predicates -/

/-- An attempted characteristic write. -/
def isWrite : Ev → Bool
  | Ev.writeAttempt _ _ => true
  | _ => false

/-- An attempted write of the OFF frame. -/
def isOffWrite : Ev → Bool
  | Ev.writeAttempt p _ => decide (p = offFrame)
  | _ => false

/-- An attempted disconnect. -/
def isDisc : Ev → Bool
  | Ev.disconnectAttempt _ => true
  | _ => false

/-- An attempted write of a colour frame (a write that is neither the ON nor
the OFF constant). -/
def isColourWrite : Ev → Bool
  | Ev.writeAttempt p _ => !(decide (p = offFrame)) && !(decide (p = onFrame))
  | _ => false

/-! ### Trace helper lemmas -/

theorem offFrame_eq : offFrame = [126, 4, 4, 0, 0, 0, 255, 0, 239] := by
  decide

theorem onFrame_eq : onFrame = [126, 4, 4, 240, 0, 1, 255, 0, 239] := by
  decide

theorem colourFrameB_eq (c : RGB) :
    colourFrameB c =
      [126, 7, 5, 3, (c.1 : Nat), (c.2.1 : Nat), (c.2.2 : Nat), 16, 239] := by
  rw [colourFrameB, encodeColour_eq _ _ _ c.1.isLt c.2.1.isLt c.2.2.isLt]
  rfl

theorem isColourWrite_sleep (n : Nat) : isColourWrite (Ev.sleepEv n) = false :=
  rfl

theorem isOffWrite_sleep (n : Nat) : isOffWrite (Ev.sleepEv n) = false :=
  rfl

theorem isDisc_write (p : List Nat) (b : Bool) :
    isDisc (Ev.writeAttempt p b) = false :=
  rfl

theorem isDisc_sleep (n : Nat) : isDisc (Ev.sleepEv n) = false :=
  rfl

theorem isColourWrite_colour (c : RGB) (b : Bool) :
    isColourWrite (Ev.writeAttempt (colourFrameB c) b) = true := by
  rw [colourFrameB_eq]
  simp [isColourWrite, offFrame_eq, onFrame_eq]

theorem isColourWrite_onWrite (b : Bool) :
    isColourWrite (Ev.writeAttempt onFrame b) = false := by
  cases b <;> decide

theorem isColourWrite_offWrite (b : Bool) :
    isColourWrite (Ev.writeAttempt offFrame b) = false := by
  cases b <;> decide

theorem isOffWrite_colour (c : RGB) (b : Bool) :
    isOffWrite (Ev.writeAttempt (colourFrameB c) b) = false := by
  rw [colourFrameB_eq]
  simp [isOffWrite, offFrame_eq]

theorem isOffWrite_onWrite (b : Bool) :
    isOffWrite (Ev.writeAttempt onFrame b) = false := by
  cases b <;> decide

theorem loopBody_countP_colour (colour : Nat → RGB) (k : Nat) :
    (loopBody colour k).countP isColourWrite = k := by
  induction k with
  | zero => rfl
  | succ n ih =>
    rw [loopBody, List.range_succ, List.flatMap_append, List.countP_append]
    rw [loopBody] at ih
    rw [ih]
    simp [List.countP_cons, isColourWrite_colour, isColourWrite_sleep]

theorem loopBody_countP_off (colour : Nat → RGB) (k : Nat) :
    (loopBody colour k).countP isOffWrite = 0 := by
  induction k with
  | zero => rfl
  | succ n ih =>
    rw [loopBody, List.range_succ, List.flatMap_append, List.countP_append]
    rw [loopBody] at ih
    rw [ih]
    simp [List.countP_cons, isOffWrite_colour, isOffWrite_sleep]

theorem loopBody_countP_disc (colour : Nat → RGB) (k : Nat) :
    (loopBody colour k).countP isDisc = 0 := by
  induction k with
  | zero => rfl
  | succ n ih =>
    rw [loopBody, List.range_succ, List.flatMap_append, List.countP_append]
    rw [loopBody] at ih
    rw [ih]
    simp [List.countP_cons, isDisc_write, isDisc_sleep]

theorem isColourWrite_connect : isColourWrite Ev.connectAttempt = false := rfl

theorem isColourWrite_connected : isColourWrite Ev.connected = false := rfl

theorem isOffWrite_connect : isOffWrite Ev.connectAttempt = false := rfl

theorem isOffWrite_connected : isOffWrite Ev.connected = false := rfl

theorem isOffWrite_disc (b : Bool) :
    isOffWrite (Ev.disconnectAttempt b) = false := rfl

theorem isColourWrite_disc (b : Bool) :
    isColourWrite (Ev.disconnectAttempt b) = false := rfl

theorem isDisc_connect : isDisc Ev.connectAttempt = false := rfl

theorem isDisc_connected : isDisc Ev.connected = false := rfl

theorem onExit_countP_colour (o d : Bool) :
    ((onExit (some ()) (some characteristic_uuid) o d).1).countP
      isColourWrite = 0 := by
  cases o <;> cases d <;> decide

theorem onExit_countP_off (o d : Bool) :
    ((onExit (some ()) (some characteristic_uuid) o d).1).countP
      isOffWrite = 1 := by
  cases o <;> cases d <;> decide

theorem onExit_countP_disc (o d : Bool) :
    ((onExit (some ()) (some characteristic_uuid) o d).1).countP
      isDisc = if o then 1 else 0 := by
  cases o <;> cases d <;> decide

/-! ### Concrete environments used for counterexamples and witnesses -/

/-- Run that connects, turns on, completes one colour iteration and is then
interrupted by SIGINT while the coroutine is suspended at an `await`. -/
def envInterrupt : Env where
  connectOk := true
  toggleOnOk := true
  colour := fun _ => (0, 0, 0)
  iters := 1
  cause := StopCause.sigintAwait
  offOk := true
  discOk := true

/-- Run that connects, turns on, and whose very first colour write raises a
write error; the shutdown OFF write and disconnect both succeed. -/
def envWriteFail : Env where
  connectOk := true
  toggleOnOk := true
  colour := fun _ => (0, 0, 0)
  iters := 0
  cause := StopCause.writeError
  offOk := true
  discOk := true

/-- Run like `envWriteFail` whose shutdown OFF write fails. -/
def envOffFail : Env where
  connectOk := true
  toggleOnOk := true
  colour := fun _ => (0, 0, 0)
  iters := 0
  cause := StopCause.writeError
  offOk := false
  discOk := true

/-- Run whose connection attempt fails. -/
def envConnectFail : Env where
  connectOk := false
  toggleOnOk := true
  colour := fun _ => (0, 0, 0)
  iters := 0
  cause := StopCause.writeError
  offOk := true
  discOk := true

/-! ### Claims -/

/-- C1 (code bug): the claim says every run reaching `RUNNING` ends with
exactly one OFF write immediately before the final disconnect, for both
interrupt- and failure-triggered shutdowns.  The failure-triggered path does
behave this way, but the interrupt path does not: `sigterm_handler` schedules
`on_exit` as an event-loop task and immediately calls `sys.exit(1)`, and when
the SIGINT lands while the event loop itself is executing the `SystemExit`
stops the loop before the scheduled task (or `main`'s `finally`) can run.  In
that run the program reaches `RUNNING` (one colour write below) yet performs
no OFF write and no disconnect before exiting with status 1 — contradicting
the code's own stated intent of exiting gracefully on SIGINT. -/
theorem interrupt_skips_shutdown_bug :
    (mainTrace envInterrupt).1.countP isColourWrite = 1 ∧
    (mainTrace envInterrupt).1.countP isOffWrite = 0 ∧
    (mainTrace envInterrupt).1.countP isDisc = 0 ∧
    (mainTrace envInterrupt).2 = 1 := by
  decide

/-- C2 counterexample: the frame for (255, 0, 128) has 9 bytes, not the 11
bytes the claim states. -/
theorem colour_frame_eleven_bytes_cex :
    (ENCODE_COLOUR 255 0 128).map List.length = some 9 ∧
    (ENCODE_COLOUR 255 0 128).map List.length ≠ some 11 := by
  decide

/-- C2 (amended): for byte-range channels the colour command is the 9-byte
frame `7E 07 05 03 r g b 10 EF` — beginning with `7E 07 05 03`, ending with
`10 EF`, with bytes 4–6 the channel values whose hex rendering is the
zero-padded lowercase R-G-B concatenation. -/
theorem colour_frame_spec (r g b : Nat) (hr : r < 256) (hg : g < 256)
    (hb : b < 256) :
    ENCODE_COLOUR r g b = some [126, 7, 5, 3, r, g, b, 16, 239] ∧
    ((ENCODE_COLOUR r g b).getD []).length = 9 ∧
    ((ENCODE_COLOUR r g b).getD []).take 4 = [126, 7, 5, 3] ∧
    ((ENCODE_COLOUR r g b).getD []).drop 7 = [16, 239] := by
  have h := encodeColour_eq r g b hr hg hb
  rw [h]
  exact ⟨rfl, rfl, rfl, rfl⟩

/-- C2 witness: the spec's own example colour (255, 0, 128). -/
theorem colour_frame_spec_witness :
    ENCODE_COLOUR 255 0 128 = some [126, 7, 5, 3, 255, 0, 128, 16, 239] :=
  (colour_frame_spec 255 0 128 (by norm_num) (by norm_num) (by norm_num)).1

/-- C3 counterexample: a run whose first colour write fails.  The full trace
shows the loop does not attempt another iteration after the failed write:
what follows is exactly the shutdown sequence (OFF write, disconnect), and no
colour write occurs after position 4. -/
theorem write_failure_stops_loop_cex :
    (mainTrace envWriteFail).1 =
      [Ev.connectAttempt, Ev.connected, Ev.sleepEv 30,
        Ev.writeAttempt onFrame true,
        Ev.writeAttempt [126, 7, 5, 3, 0, 0, 0, 16, 239] false,
        Ev.writeAttempt offFrame true, Ev.disconnectAttempt true] ∧
    ((mainTrace envWriteFail).1.drop 5).countP isColourWrite = 0 := by
  decide

/-- C3 (amended): the `while True:` body has no inner `try`, so a failed
write during `RUNNING` terminates the loop: the error is caught and logged by
the outer handler and the run proceeds directly to the shutdown path of
`on_exit`/`disconnect_client`; exactly `iters + 1` colour writes occur in
total (the failed one is last), with no further iteration after the
failure. -/
theorem write_failure_stops_loop (env : Env) (h1 : env.connectOk = true)
    (h2 : env.toggleOnOk = true) (h3 : env.cause = StopCause.writeError) :
    (∃ s, (mainTrace env).1 =
      s ++ Ev.writeAttempt (colourFrameB (env.colour env.iters)) false ::
        (onExit (some ()) (some characteristic_uuid) env.offOk
          env.discOk).1) ∧
    (mainTrace env).1.countP isColourWrite = env.iters + 1 := by
  constructor
  · refine ⟨[Ev.connectAttempt, Ev.connected, Ev.sleepEv 30,
      Ev.writeAttempt onFrame true] ++ loopBody env.colour env.iters, ?_⟩
    simp [mainTrace, h1, h2, h3, List.append_assoc]
  · simp [mainTrace, h1, h2, h3, List.countP_append, loopBody_countP_colour,
      List.countP_cons, isColourWrite_colour, isColourWrite_onWrite,
      isColourWrite_sleep, isColourWrite_connect, isColourWrite_connected,
      onExit_countP_colour]

/-- C3 witness: `envWriteFail` has zero completed iterations, so exactly one
(failed) colour write occurs. -/
theorem write_failure_stops_loop_witness :
    (mainTrace envWriteFail).1.countP isColourWrite = 1 :=
  (write_failure_stops_loop envWriteFail rfl rfl rfl).2

/-- C4 counterexample: the decoded `OFF_HEX` frame is
`7E 04 04 00 00 00 FF 00 EF`; it is not the claimed sequence
`7E 04 00 00 00 FF 00 EF`, nor that sequence padded with a zero byte at
either end. -/
theorem off_frame_literal_cex :
    fromHex OFF_HEX = some [126, 4, 4, 0, 0, 0, 255, 0, 239] ∧
    fromHex OFF_HEX ≠ some [126, 4, 0, 0, 0, 255, 0, 239] ∧
    fromHex OFF_HEX ≠ some ([126, 4, 0, 0, 0, 255, 0, 239] ++ [0]) ∧
    fromHex OFF_HEX ≠ some (0 :: [126, 4, 0, 0, 0, 255, 0, 239]) := by
  decide

/-- C4 (amended): the OFF-command encoding is the fixed 9-byte sequence
`7E 04 04 00 00 00 FF 00 EF` (identical on every call — it is the pure
decoding of the constant `OFF_HEX`). -/
theorem off_frame_spec :
    fromHex OFF_HEX = some [126, 4, 4, 0, 0, 0, 255, 0, 239] ∧
    (fromHex OFF_HEX).map List.length = some 9 := by
  decide

/-- C5 counterexample: a run whose connection succeeds but whose shutdown OFF
write fails.  `disconnect_client` has no `try` around `toggle_off`, so the
exception propagates before `client.disconnect()` is reached: the OFF write
was attempted once, yet no disconnection attempt occurs at all. -/
theorem off_failure_blocks_disconnect_cex :
    Ev.connected ∈ (mainTrace envOffFail).1 ∧
    (mainTrace envOffFail).1.countP isOffWrite = 1 ∧
    (mainTrace envOffFail).1.countP isDisc = 0 := by
  decide

/-- C5 (amended): in a failure-triggered shutdown, a successful connection is
paired with exactly one disconnection attempt only when the preceding OFF
write succeeds, and that attempt immediately follows the OFF write; when the
OFF write fails, the exception blocks the disconnection, which is never
attempted. -/
theorem disconnect_pairing (env : Env) (h1 : env.connectOk = true)
    (h2 : env.toggleOnOk = true) (h3 : env.cause = StopCause.writeError) :
    (env.offOk = true →
      (mainTrace env).1.countP isDisc = 1 ∧
      ∃ s, (mainTrace env).1 =
        s ++ [Ev.writeAttempt offFrame true,
          Ev.disconnectAttempt env.discOk]) ∧
    (env.offOk = false →
      (mainTrace env).1.countP isDisc = 0 ∧
      (mainTrace env).1.countP isOffWrite = 1) := by
  constructor
  · intro h4
    constructor
    · simp [mainTrace, h1, h2, h3, List.countP_append, loopBody_countP_disc,
        List.countP_cons, isDisc_connect, isDisc_connected, isDisc_sleep,
        isDisc_write, onExit_countP_disc, h4]
    · refine ⟨[Ev.connectAttempt, Ev.connected, Ev.sleepEv 30,
        Ev.writeAttempt onFrame true] ++ loopBody env.colour env.iters ++
        [Ev.writeAttempt (colourFrameB (env.colour env.iters)) false], ?_⟩
      simp [mainTrace, h1, h2, h3, onExit, disconnectClient, h4,
        List.append_assoc]
  · intro h4
    constructor
    · simp [mainTrace, h1, h2, h3, List.countP_append, loopBody_countP_disc,
        List.countP_cons, isDisc_connect, isDisc_connected, isDisc_sleep,
        isDisc_write, onExit_countP_disc, h4]
    · simp [mainTrace, h1, h2, h3, List.countP_append, loopBody_countP_off,
        List.countP_cons, isOffWrite_connect, isOffWrite_connected,
        isOffWrite_sleep, isOffWrite_onWrite, isOffWrite_colour,
        onExit_countP_off]

/-- C5 witness: in `envWriteFail` (OFF write succeeds) there is exactly one
disconnection attempt. -/
theorem disconnect_pairing_witness :
    (mainTrace envWriteFail).1.countP isDisc = 1 :=
  ((disconnect_pairing envWriteFail rfl rfl rfl).1 rfl).1

/-- C6: when the connection attempt fails, the run produces only the
connection attempt itself — no write of any kind, no `connected` event (so
`RUNNING` is never entered) — and the process exits with status 1 (the
`finally` block even crashes on the unbound `client` local). -/
theorem connect_failure_no_write (env : Env) (h : env.connectOk = false) :
    (mainTrace env).1 = [Ev.connectAttempt] ∧
    (mainTrace env).1.countP isWrite = 0 ∧
    Ev.connected ∉ (mainTrace env).1 ∧
    (mainTrace env).2 = 1 := by
  simp [mainTrace, h, List.countP_cons, isWrite]

/-- C6 witness. -/
theorem connect_failure_no_write_witness :
    (mainTrace envConnectFail).1 = [Ev.connectAttempt] ∧
    (mainTrace envConnectFail).1.countP isWrite = 0 ∧
    Ev.connected ∉ (mainTrace envConnectFail).1 ∧
    (mainTrace envConnectFail).2 = 1 :=
  connect_failure_no_write envConnectFail rfl

/-- C7 counterexample: a run that shuts down because of a propagated write
failure performs the full shutdown sequence (one OFF write, one disconnect)
but then exits with status 0, not the non-zero status the claim requires:
the outer `except Exception` swallows the error and `main` returns
normally. -/
theorem exit_status_zero_cex :
    (mainTrace envWriteFail).2 = 0 ∧
    (mainTrace envWriteFail).1.countP isOffWrite = 1 ∧
    (mainTrace envWriteFail).1.countP isDisc = 1 := by
  decide

/-- C7 (amended): on an interrupt the process exits with status 1 (without
reliably performing the shutdown sequence, see C1); on a propagated
unrecoverable error the shutdown sequence is attempted (one OFF write) and
the process exits with status 0 when OFF write and disconnect both succeed,
and with status 1 only when the shutdown itself raises. -/
theorem exit_status_spec (env : Env) (h1 : env.connectOk = true)
    (h2 : env.toggleOnOk = true) :
    (env.cause = StopCause.sigintAwait → (mainTrace env).2 = 1) ∧
    (env.cause = StopCause.sigintSleep → (mainTrace env).2 = 1) ∧
    (env.cause = StopCause.writeError →
      (mainTrace env).1.countP isOffWrite = 1 ∧
      (mainTrace env).2 = if env.offOk && env.discOk then 0 else 1) := by
  refine ⟨fun h3 => ?_, fun h3 => ?_, fun h3 => ?_⟩
  · simp [mainTrace, h1, h2, h3]
  · simp [mainTrace, h1, h2, h3]
  · constructor
    · simp [mainTrace, h1, h2, h3, List.countP_append, loopBody_countP_off,
        List.countP_cons, isOffWrite_connect, isOffWrite_connected,
        isOffWrite_sleep, isOffWrite_onWrite, isOffWrite_colour,
        onExit_countP_off]
    · cases h4 : env.offOk <;> cases h5 : env.discOk <;>
        simp [mainTrace, h1, h2, h3, onExit, disconnectClient, h4, h5]

/-- C7 witness: `envWriteFail` exits with status 0 after one OFF write. -/
theorem exit_status_spec_witness :
    (mainTrace envWriteFail).1.countP isOffWrite = 1 ∧
    (mainTrace envWriteFail).2 = 0 :=
  (exit_status_spec envWriteFail rfl rfl).2.2 rfl

/-- C8: the ON-command encoding is the fixed 9-byte sequence
`7E 04 04 F0 00 01 FF 00 EF`; both ON and OFF encodings are pure decodings
of string constants, hence deterministic and identical on every call. -/
theorem on_frame_spec :
    fromHex ON_HEX = some [126, 4, 4, 240, 0, 1, 255, 0, 239] ∧
    (fromHex ON_HEX).map List.length = some 9 ∧
    fromHex OFF_HEX = some [126, 4, 4, 0, 0, 0, 255, 0, 239] := by
  decide

/-- C9: in every run whose connection succeeds, the settle delay of 3
seconds (`sleepEv 30`, durations in tenths) lies between the `connected`
event and the session's first characteristic write. -/
theorem settle_delay_spec (env : Env) (h : env.connectOk = true) :
    ∃ rest, (mainTrace env).1 =
      Ev.connectAttempt :: Ev.connected :: Ev.sleepEv 30 ::
        Ev.writeAttempt onFrame env.toggleOnOk :: rest := by
  cases h2 : env.toggleOnOk <;> cases h3 : env.cause <;>
    simp [mainTrace, h, h2, h3]

/-- C9 witness. -/
theorem settle_delay_spec_witness :
    ∃ rest, (mainTrace envWriteFail).1 =
      Ev.connectAttempt :: Ev.connected :: Ev.sleepEv 30 ::
        Ev.writeAttempt onFrame true :: rest :=
  settle_delay_spec envWriteFail rfl

/-- C10: calling `disconnect_client` (or `on_exit`) with no client performs
no OFF write, no disconnect attempt, and raises nothing, whatever the
characteristic constant and the would-be outcomes of the external calls. -/
theorem disconnect_none_noop (uuid : Option String) (offOk discOk : Bool) :
    disconnectClient none uuid offOk discOk = ([], false) ∧
    onExit none uuid offOk discOk = ([], false) :=
  ⟨rfl, rfl⟩

end AmbientMonitor
